import Mathlib

/-!
Shallow embedding of the Spotify OAuth component of the playlist-migrator
repository (src/config.py, src/oauth.py, src/main.py, src/utils.py).

Modelling conventions:
- Python `Optional[str]` becomes `Option String`; Python truthiness of an
  optional string (`if not x`) is `pyTruthyStr`.
- The upstream HTTP interaction of one call is modelled by an `HTTPResult`
  argument: either a transport error (an `httpx.HTTPError` raised while
  sending) or a response with a status code and a parsed JSON body
  (`none` body = the `.json()` call raised, i.e. a malformed body).
- JSON values are modelled by `JsonVal` (strings, integers, null, arrays,
  objects); objects are association lists, looked up with `List.lookup`
  as Python dict indexing or `.get` does.
- `datetime.utcnow()` is modelled by an explicit `now : Int` argument
  (seconds); `now + timedelta(seconds=n)` is `now + n`.
- Every Python exception path that the source catches and converts to
  `None` is a `none` result of the embedding; the embeddings are total
  functions, mirroring that no exception crosses the component boundary.
- `secrets.token_urlsafe(32)` is modelled by `token_urlsafe` applied to
  the list of 32 random bytes the CSPRNG would draw.
-/

/-- A JSON value, as returned by `response.json()`. Objects are
association lists with string keys. -/
inductive JsonVal where
  | jstr : String → JsonVal
  | jint : Int → JsonVal
  | jnull : JsonVal
  | jlist : List JsonVal → JsonVal
  | jdict : List (String × JsonVal) → JsonVal

/-- Outcome of one outbound HTTP request: a transport-level error, or a
response with a status code and an optional parsed JSON body (`none` =
the body failed to parse as JSON). -/
inductive HTTPResult where
  | transportError : HTTPResult
  | response : Nat → Option JsonVal → HTTPResult

/-- Python truthiness of an `Optional[str]`: `None` and the empty string
are falsy, every other string is truthy. -/
def pyTruthyStr : Option String → Bool
  | none => false
  | some s => !(s == "")

/-- Python `str()` as applied by `urlencode` and form encoding to an
`Optional[str]` value: `None` prints as the string `"None"`. -/
def pyStr : Option String → String
  | none => "None"
  | some s => s

/-- `str.split()` with no argument: split on runs of whitespace, dropping
empty pieces (modelled for space-separated input, which is what
`SPOTIFY_SCOPES` contains). -/
def pySplit (s : String) : List String :=
  (s.splitOn " ").filter (fun t => !(t == ""))

/-- The fields of `config.Settings` that the OAuth client reads
(src/config.py lines 54-60). -/
structure Settings where
  SPOTIFY_CLIENT_ID : Option String
  SPOTIFY_CLIENT_SECRET : Option String
  SPOTIFY_REDIRECT_URI : String
  SPOTIFY_SCOPES : String

/-- The default values of those fields in `config.Settings`
(src/config.py): credentials default to `None`. -/
def defaultSettings : Settings :=
  { SPOTIFY_CLIENT_ID := none
    SPOTIFY_CLIENT_SECRET := none
    SPOTIFY_REDIRECT_URI := "http://127.0.0.1:8000/auth/spotify/callback"
    SPOTIFY_SCOPES := "playlist-read-private playlist-read-collaborative playlist-modify-public playlist-modify-private user-read-private user-read-email" }

/-- The state of a constructed `SpotifyOAuth` client (src/oauth.py
lines 19-23). -/
structure SpotifyOAuth where
  client_id : Option String
  client_secret : Option String
  redirect_uri : String
  scopes : List String

/-- `SpotifyOAuth.__init__` (src/oauth.py lines 19-26): copies the
settings fields and, when the client id or secret is falsy, logs the
warning "Spotify OAuth credentials not configured". The second component
collects the warnings logged; the function is total, so construction
never raises. -/
def SpotifyOAuth.construct (s : Settings) : SpotifyOAuth × List String :=
  let c : SpotifyOAuth :=
    { client_id := s.SPOTIFY_CLIENT_ID
      client_secret := s.SPOTIFY_CLIENT_SECRET
      redirect_uri := s.SPOTIFY_REDIRECT_URI
      scopes := pySplit s.SPOTIFY_SCOPES }
  (c, if !(pyTruthyStr c.client_id) || !(pyTruthyStr c.client_secret)
      then ["Spotify OAuth credentials not configured"] else [])

/-- `models.SpotifyToken` (src/models.py lines 20-27). -/
structure SpotifyToken where
  access_token : String
  token_type : String
  expires_in : Int
  refresh_token : Option String
  scope : Option String
  expires_at : Option Int
deriving DecidableEq

/-- `token_data.get(k, dflt)` validated by pydantic as a required `str`
field with a default: a missing key yields the default, a string value
is accepted, anything else (including JSON null) fails validation, which
the source catches and turns into an absent token. -/
def pyGetStrD (td : List (String × JsonVal)) (k dflt : String) : Option String :=
  match td.lookup k with
  | none => some dflt
  | some (.jstr s) => some s
  | some _ => none

/-- `token_data.get(k, dflt)` validated by pydantic as an `Optional[str]`
field: a missing key yields the default, a string is accepted, JSON null
becomes `None`, anything else fails validation. -/
def pyGetOptStrD (td : List (String × JsonVal)) (k : String) (dflt : Option String) :
    Option (Option String) :=
  match td.lookup k with
  | none => some dflt
  | some (.jstr s) => some (some s)
  | some .jnull => some none
  | some _ => none

/-- `SpotifyOAuth.exchange_code_for_token` (src/oauth.py lines 50-102).
Guards on falsy credentials, then performs one POST whose outcome is
`resp`; `raise_for_status` (non-2xx), a malformed body, a non-object
body, a missing or non-integer `expires_in`, a missing or non-string
`access_token`, and pydantic validation failures are all caught by the
`except` clauses and become `none`. On success the token carries
`expires_at = now + expires_in` (line 86). -/
def SpotifyOAuth.exchange_code_for_token (self : SpotifyOAuth) (code : String)
    (resp : HTTPResult) (now : Int) : Option SpotifyToken :=
  if !(pyTruthyStr self.client_id) || !(pyTruthyStr self.client_secret) then none
  else
    match resp with
    | .transportError => none
    | .response status body =>
      if 200 ≤ status ∧ status < 300 then
        match body with
        | some (.jdict td) =>
          match td.lookup "expires_in" with
          | some (.jint expires_in) =>
            match td.lookup "access_token" with
            | some (.jstr access_token) =>
              match pyGetStrD td "token_type" "Bearer",
                    pyGetOptStrD td "refresh_token" none,
                    pyGetOptStrD td "scope" none with
              | some token_type, some refresh_token, some scope =>
                some { access_token := access_token
                       token_type := token_type
                       expires_in := expires_in
                       refresh_token := refresh_token
                       scope := scope
                       expires_at := some (now + expires_in) }
              | _, _, _ => none
            | _ => none
          | _ => none
        | _ => none
      else none

/-- The base64url alphabet used by `base64.urlsafe_b64encode`. -/
def b64UrlAlphabet : List Char :=
  "ABCDEFGHIJKLMNOPQRSTUVWXYZabcdefghijklmnopqrstuvwxyz0123456789-_".data

/-- The base64url digit for a 6-bit group. -/
def b64Char (n : Nat) : Char := b64UrlAlphabet.getD (n % 64) 'A'

/-- base64url encoding of a byte list with the `=` padding stripped,
as `base64.urlsafe_b64encode(b).rstrip(b"=")` produces. -/
def b64UrlEncode : List Nat → List Char
  | [] => []
  | [b1] => [b64Char (b1 / 4), b64Char (b1 % 4 * 16)]
  | [b1, b2] => [b64Char (b1 / 4), b64Char (b1 % 4 * 16 + b2 / 16), b64Char (b2 % 16 * 4)]
  | b1 :: b2 :: b3 :: rest =>
      b64Char (b1 / 4) :: b64Char (b1 % 4 * 16 + b2 / 16) ::
      b64Char (b2 % 16 * 4 + b3 / 64) :: b64Char (b3 % 64) :: b64UrlEncode rest

/-- `secrets.token_urlsafe` applied to the bytes the CSPRNG drew:
base64url-encode them and strip padding. The source calls it with
`nbytes = 32`, so `randomBytes` has length 32 there. -/
def token_urlsafe (randomBytes : List Nat) : String :=
  String.mk (b64UrlEncode randomBytes)

/-- The hexadecimal digits used in percent-escapes. -/
def hexDigits : List Char := "0123456789ABCDEF".data

/-- One character under `urllib.parse.quote_plus` (ASCII model): the
safe characters are alphanumerics and `_.-~`, a space becomes `+`, and
everything else a `%XX` escape. -/
def quotePlusChar (c : Char) : List Char :=
  if c.isAlphanum || c == '_' || c == '.' || c == '-' || c == '~' then [c]
  else if c == ' ' then ['+']
  else ['%', hexDigits.getD (c.toNat / 16 % 16) '0', hexDigits.getD (c.toNat % 16) '0']

/-- `quote_plus` on a whole string. -/
def quotePlus (s : String) : String := String.mk ((s.data.map quotePlusChar).flatten)

/-- `urllib.parse.urlencode`: each pair becomes `key=value` with both
sides `quote_plus`-escaped, pairs joined by `&`. -/
def urlencode (params : List (String × String)) : String :=
  String.intercalate "&" (params.map (fun p => quotePlus p.1 ++ "=" ++ quotePlus p.2))

/-- The query-parameter dictionary built by `get_authorization_url`
(src/oauth.py lines 38-45), in insertion order. -/
def SpotifyOAuth.authParams (self : SpotifyOAuth) (state : String) : List (String × String) :=
  [("client_id", pyStr self.client_id),
   ("response_type", "code"),
   ("redirect_uri", self.redirect_uri),
   ("scope", String.intercalate " " self.scopes),
   ("state", state),
   ("show_dialog", "true")]

/-- `SpotifyOAuth.get_authorization_url` (src/oauth.py lines 28-48):
when the supplied state is falsy (absent or empty), a fresh state is
generated with `secrets.token_urlsafe(32)`, whose random bytes are the
`randomBytes` argument; then the authorization URL is built from the
parameter dictionary. Returns `(auth_url, state)`. -/
def SpotifyOAuth.get_authorization_url (self : SpotifyOAuth) (randomBytes : List Nat)
    (state : Option String := none) : String × String :=
  let st := if pyTruthyStr state then state.getD "" else token_urlsafe randomBytes
  ("https://accounts.spotify.com/authorize?" ++ urlencode (self.authParams st), st)

/-- `models.SpotifyUser` (src/models.py lines 29-37). -/
structure SpotifyUser where
  id : String
  display_name : Option String
  email : Option String
  country : Option String
  followers : Option (List (String × JsonVal))
  images : Option (List JsonVal)
  product : Option String

/-- `user_data.get(k)` validated by pydantic as `Optional[str]`:
missing or null becomes `None`, a string is accepted, anything else
fails validation. -/
def pyGetOptStr (ud : List (String × JsonVal)) (k : String) : Option (Option String) :=
  pyGetOptStrD ud k none

/-- `user_data.get(k)` validated by pydantic as `Optional[Dict]`. -/
def pyGetOptDict (ud : List (String × JsonVal)) (k : String) :
    Option (Option (List (String × JsonVal))) :=
  match ud.lookup k with
  | none => some none
  | some .jnull => some none
  | some (.jdict d) => some (some d)
  | some _ => none

/-- `user_data.get(k)` validated by pydantic as `Optional[list]`. -/
def pyGetOptList (ud : List (String × JsonVal)) (k : String) :
    Option (Option (List JsonVal)) :=
  match ud.lookup k with
  | none => some none
  | some .jnull => some none
  | some (.jlist l) => some (some l)
  | some _ => none

/-- `SpotifyOAuth.get_user_profile` (src/oauth.py lines 157-195): one
bearer-authenticated GET; non-2xx, malformed body, non-object body,
missing or non-string `id`, and pydantic validation failures all become
`none`. -/
def SpotifyOAuth.get_user_profile (self : SpotifyOAuth) (access_token : String)
    (resp : HTTPResult) : Option SpotifyUser :=
  match resp with
  | .transportError => none
  | .response status body =>
    if 200 ≤ status ∧ status < 300 then
      match body with
      | some (.jdict ud) =>
        match ud.lookup "id" with
        | some (.jstr id) =>
          match pyGetOptStr ud "display_name", pyGetOptStr ud "email",
                pyGetOptStr ud "country", pyGetOptDict ud "followers",
                pyGetOptList ud "images", pyGetOptStr ud "product" with
          | some display_name, some email, some country,
            some followers, some images, some product =>
            some { id := id, display_name := display_name, email := email
                   country := country, followers := followers
                   images := images, product := product }
          | _, _, _, _, _, _ => none
        | _ => none
      | _ => none
    else none

/-- One outbound HTTP request as the component builds it: target URL,
query parameters, and the bearer token of the Authorization header. -/
structure HttpRequest where
  url : String
  params : List (String × String)
  bearer : Option String
deriving DecidableEq

/-- The requests issued by one call to `SpotifyOAuth.get_user_playlists`
(src/oauth.py lines 208-220): exactly one GET to the playlists endpoint
with the single query parameter `limit`; no follow-up page is fetched. -/
def SpotifyOAuth.get_user_playlists_requests (access_token : String)
    (limit : Int := 50) : List HttpRequest :=
  [{ url := "https://api.spotify.com/v1/me/playlists"
     params := [("limit", toString limit)]
     bearer := some access_token }]

/-- `SpotifyOAuth.get_user_playlists` (src/oauth.py lines 197-231): one
bearer-authenticated GET with query parameter `limit` (default 50); on
success returns `data.get('items', [])` from the response object; a
transport error, non-2xx status, malformed body, or non-object body
becomes `none`. -/
def SpotifyOAuth.get_user_playlists (self : SpotifyOAuth) (access_token : String)
    (resp : HTTPResult) (limit : Int := 50) : Option JsonVal :=
  match resp with
  | .transportError => none
  | .response status body =>
    if 200 ≤ status ∧ status < 300 then
      match body with
      | some (.jdict d) => some ((d.lookup "items").getD (.jlist []))
      | _ => none
    else none

/-- `models.AuthResponse` (src/models.py lines 39-44). -/
structure AuthResponse where
  success : Bool
  message : String
  user : Option SpotifyUser := none
  access_token : Option String := none

/-- The `/auth/spotify/callback` handler `spotify_callback`
(src/main.py lines 85-128): receives `code`, `state` and an optional
`error` from the redirect; on a truthy `error` reports failure;
otherwise exchanges the code (the `state` parameter is received but
never compared to anything), then fetches the profile, and on success
returns the access token. `tokenResp` and `profileResp` are the
outcomes of the two upstream calls. -/
def spotify_callback (client : SpotifyOAuth) (code state : String)
    (error : Option String) (tokenResp profileResp : HTTPResult) (now : Int) :
    AuthResponse :=
  if pyTruthyStr error then
    { success := false
      message := "Spotify authentication failed: " ++ pyStr error }
  else
    match client.exchange_code_for_token code tokenResp now with
    | none =>
      { success := false
        message := "Failed to exchange authorization code for access token" }
    | some token =>
      match client.get_user_profile token.access_token profileResp with
      | none =>
        { success := false, message := "Failed to retrieve user profile" }
      | some user =>
        { success := true
          message := "Successfully authenticated with Spotify"
          user := some user
          access_token := some token.access_token }

/-- A Python value stored in a dictionary handled by
`mask_sensitive_data`: either a string or some non-string value
(`vother n`, with the tag distinguishing different non-string values). -/
inductive PyVal where
  | vstr : String → PyVal
  | vother : Nat → PyVal
deriving DecidableEq

/-- The default `sensitive_fields` list of `mask_sensitive_data`
(src/utils.py line 143). -/
def defaultSensitiveFields : List String :=
  ["password", "token", "secret", "key", "api_key"]

/-- Python substring containment `needle in hay` on character lists. -/
def listContainsSub (needle : List Char) : List Char → Bool
  | [] => needle.isEmpty
  | c :: t => needle.isPrefixOf (c :: t) || listContainsSub needle t

/-- Python `needle in hay` for strings. -/
def strContainsSub (hay needle : String) : Bool :=
  listContainsSub needle.data hay.data

/-- Python `str.lower()` (ASCII model). -/
def pyLower (s : String) : String := String.mk (s.data.map Char.toLower)

/-- Whether a key matches the sensitive-field test of
`mask_sensitive_data` (src/utils.py line 148):
`any(field in key.lower() for field in sensitive_fields)`. -/
def isSensitiveKey (fields : List String) (key : String) : Bool :=
  fields.any (fun f => strContainsSub (pyLower key) f)

/-- The masking applied to one matching value (src/utils.py lines
149-152): a string of more than 4 characters keeps its first two and
last two characters with `*` in between; anything else becomes "***". -/
def maskValue : PyVal → PyVal
  | .vstr s =>
    if s.data.length > 4 then
      .vstr (String.mk (s.data.take 2 ++
        List.replicate (s.data.length - 4) '*' ++
        s.data.drop (s.data.length - 2)))
    else .vstr "***"
  | _ => .vstr "***"

/-- `utils.mask_sensitive_data` (src/utils.py lines 140-154): copies
the dictionary and replaces the value of every entry whose lowercased
key contains one of the sensitive field names. The dictionary is
modelled as an association list in iteration order. -/
def mask_sensitive_data (data : List (String × PyVal))
    (sensitive_fields : Option (List String) := none) : List (String × PyVal) :=
  let fields := sensitive_fields.getD defaultSensitiveFields
  data.map (fun kv => if isSensitiveKey fields kv.1 then (kv.1, maskValue kv.2) else kv)

/-- `utils.validate_pagination_params` (src/utils.py lines 113-117):
clamp `page` to at least 1 and `per_page` into `[1, max_per_page]`. -/
def validate_pagination_params (page per_page : Int) (max_per_page : Int := 100) :
    Int × Int :=
  (max 1 page, max 1 (min per_page max_per_page))

/-- `SpotifyOAuth.refresh_access_token` (src/oauth.py lines 104-155).
Identical structure to the exchange, except line 145:
`token_data.get('refresh_token', refresh_token)` keeps the old refresh
token when the response omits the field. -/
def SpotifyOAuth.refresh_access_token (self : SpotifyOAuth) (refresh_token : String)
    (resp : HTTPResult) (now : Int) : Option SpotifyToken :=
  if !(pyTruthyStr self.client_id) || !(pyTruthyStr self.client_secret) then none
  else
    match resp with
    | .transportError => none
    | .response status body =>
      if 200 ≤ status ∧ status < 300 then
        match body with
        | some (.jdict td) =>
          match td.lookup "expires_in" with
          | some (.jint expires_in) =>
            match td.lookup "access_token" with
            | some (.jstr access_token) =>
              match pyGetStrD td "token_type" "Bearer",
                    pyGetOptStrD td "refresh_token" (some refresh_token),
                    pyGetOptStrD td "scope" none with
              | some token_type, some new_refresh_token, some scope =>
                some { access_token := access_token
                       token_type := token_type
                       expires_in := expires_in
                       refresh_token := new_refresh_token
                       scope := scope
                       expires_at := some (now + expires_in) }
              | _, _, _ => none
            | _ => none
          | _ => none
        | _ => none
      else none

/-- C9: for all integer inputs `page` and `per_page` and every
`max_per_page ≥ 1`, `validate_pagination_params` returns a pair `(p, pp)`
with `p ≥ 1` and `1 ≤ pp ≤ max_per_page`, and it returns the inputs
unchanged whenever `page ≥ 1` and `1 ≤ per_page ≤ max_per_page`. -/
theorem validate_pagination_params_spec (page per_page max_per_page : Int)
    (h : 1 ≤ max_per_page) :
    1 ≤ (validate_pagination_params page per_page max_per_page).1 ∧
    1 ≤ (validate_pagination_params page per_page max_per_page).2 ∧
    (validate_pagination_params page per_page max_per_page).2 ≤ max_per_page ∧
    (1 ≤ page → 1 ≤ per_page → per_page ≤ max_per_page →
      validate_pagination_params page per_page max_per_page = (page, per_page)) := by
  refine ⟨le_max_left 1 page, le_max_left 1 _, max_le h (min_le_right _ _), ?_⟩
  intro h1 h2 h3
  unfold validate_pagination_params
  rw [min_eq_left h3, max_eq_right h1, max_eq_right h2]

/-- Witness for C9 at `page = 2`, `per_page = 10`, `max_per_page = 100`. -/
theorem validate_pagination_params_spec_witness :
    1 ≤ (validate_pagination_params 2 10 100).1 ∧
    1 ≤ (validate_pagination_params 2 10 100).2 ∧
    (validate_pagination_params 2 10 100).2 ≤ 100 ∧
    validate_pagination_params 2 10 100 = (2, 10) :=
  ⟨(validate_pagination_params_spec 2 10 100 (by decide)).1,
   (validate_pagination_params_spec 2 10 100 (by decide)).2.1,
   (validate_pagination_params_spec 2 10 100 (by decide)).2.2.1,
   (validate_pagination_params_spec 2 10 100 (by decide)).2.2.2
     (by decide) (by decide) (by decide)⟩

/-- C10: `mask_sensitive_data` keeps exactly the key sequence of its
input; every entry whose lowercased key contains none of the default
sensitive field names keeps its value, and every matching entry has its
value replaced by `maskValue`, where a string of more than 4 characters
keeps only its first two and last two characters at the same total
length and anything else becomes "***". -/
theorem mask_sensitive_data_spec (data : List (String × PyVal)) :
    ((mask_sensitive_data data).map Prod.fst = data.map Prod.fst) ∧
    (∀ i : Nat, (mask_sensitive_data data)[i]? = (data[i]?).map (fun kv =>
        if isSensitiveKey defaultSensitiveFields kv.1 then (kv.1, maskValue kv.2) else kv)) ∧
    (∀ s : String, 4 < s.data.length →
        maskValue (.vstr s) = .vstr (String.mk (s.data.take 2 ++
          List.replicate (s.data.length - 4) '*' ++ s.data.drop (s.data.length - 2))) ∧
        (∀ t : String, maskValue (.vstr s) = .vstr t → t.data.length = s.data.length)) ∧
    (∀ v : PyVal, (∀ s : String, v = .vstr s → s.data.length ≤ 4) →
        maskValue v = .vstr "***") := by
  refine ⟨?_, ?_, ?_, ?_⟩
  · induction data with
    | nil => rfl
    | cons kv t ih =>
      simp only [mask_sensitive_data, List.map_cons] at ih ⊢
      refine congrArg₂ List.cons ?_ ih
      split <;> rfl
  · intro i
    simp [mask_sensitive_data, List.getElem?_map]
  · intro s hs
    have hmask : maskValue (.vstr s) = .vstr (String.mk (s.data.take 2 ++
        List.replicate (s.data.length - 4) '*' ++ s.data.drop (s.data.length - 2))) := by
      simp only [maskValue]
      rw [if_pos hs]
    refine ⟨hmask, ?_⟩
    intro t ht
    rw [hmask] at ht
    injection ht with h1
    subst h1
    have hd : ∀ l : List Char, (String.mk l).data = l := fun _ => rfl
    rw [hd]
    simp only [List.length_append, List.length_take, List.length_replicate,
      List.length_drop]
    omega
  · intro v hv
    match v with
    | .vstr s =>
      have hle := hv s rfl
      simp only [maskValue]
      rw [if_neg (by omega)]
    | .vother n => rfl

/-- Witness for C10 at a dictionary with one sensitive eight-character
entry and one non-sensitive entry. -/
theorem mask_sensitive_data_spec_witness :
    (mask_sensitive_data [("api_key", .vstr "abcdefgh"), ("name", .vstr "bob")])[0]? =
      some ("api_key", PyVal.vstr "ab****gh") ∧
    (mask_sensitive_data [("api_key", .vstr "abcdefgh"), ("name", .vstr "bob")])[1]? =
      some ("name", PyVal.vstr "bob") := by
  have h := (mask_sensitive_data_spec [("api_key", .vstr "abcdefgh"), ("name", .vstr "bob")]).2.1
  exact ⟨by simpa using h 0, by simpa using h 1⟩

/-- Inversion of a successful token exchange: the response body must
have reported `expires_in = tok.expires_in`, the refresh-token field
validated to `tok.refresh_token`, and the expiry instant is the clock
reading plus the reported lifetime. -/
theorem exchange_inversion (self : SpotifyOAuth) (code : String) (status : Nat)
    (td : List (String × JsonVal)) (now : Int) (tok : SpotifyToken)
    (hx : self.exchange_code_for_token code (.response status (some (.jdict td))) now =
      some tok) :
    td.lookup "expires_in" = some (.jint tok.expires_in) ∧
    pyGetOptStrD td "refresh_token" none = some tok.refresh_token ∧
    tok.expires_at = some (now + tok.expires_in) := by
  unfold SpotifyOAuth.exchange_code_for_token at hx
  repeat' split at hx
  all_goals try exact Option.noConfusion hx
  injection hx with h
  subst h
  simp_all

/-- Inversion of a successful token refresh, analogous to
`exchange_inversion`; the refresh-token field is looked up with the old
refresh token as the `.get` default. -/
theorem refresh_inversion (self : SpotifyOAuth) (refresh_token : String) (status : Nat)
    (td : List (String × JsonVal)) (now : Int) (tok : SpotifyToken)
    (hx : self.refresh_access_token refresh_token (.response status (some (.jdict td))) now =
      some tok) :
    td.lookup "expires_in" = some (.jint tok.expires_in) ∧
    pyGetOptStrD td "refresh_token" (some refresh_token) = some tok.refresh_token ∧
    tok.expires_at = some (now + tok.expires_in) := by
  unfold SpotifyOAuth.refresh_access_token at hx
  repeat' split at hx
  all_goals try exact Option.noConfusion hx
  injection hx with h
  subst h
  simp_all

/-- C2: whenever a refresh call returns a token and the upstream
response body omits the `refresh_token` field, the returned token
carries forward the original refresh token. -/
theorem refresh_access_token_carries_forward (self : SpotifyOAuth) (r : String)
    (status : Nat) (td : List (String × JsonVal)) (now : Int) (tok : SpotifyToken)
    (homit : td.lookup "refresh_token" = none)
    (hx : self.refresh_access_token r (.response status (some (.jdict td))) now = some tok) :
    tok.refresh_token = some r := by
  have h := (refresh_inversion self r status td now tok hx).2.1
  simp only [pyGetOptStrD, homit] at h
  exact (Option.some.inj h).symm

/-- A sample configured client, used to instantiate witnesses: the
credentials come from the environment in the source, so any concrete
values stand in for them. -/
def sampleClient : SpotifyOAuth :=
  { client_id := some "test-client-id"
    client_secret := some "test-client-secret"
    redirect_uri := "http://127.0.0.1:8000/auth/spotify/callback"
    scopes := ["playlist-read-private", "user-read-email"] }

/-- A refresh response body that omits the `refresh_token` field. -/
def refreshBody0 : List (String × JsonVal) :=
  [("access_token", .jstr "AT1"), ("expires_in", .jint 3600)]

/-- The token the embedding produces for `refreshBody0` at `now = 0`
with original refresh token "RT0". -/
def sampleToken0 : SpotifyToken :=
  { access_token := "AT1", token_type := "Bearer", expires_in := 3600
    refresh_token := some "RT0", scope := none, expires_at := some 3600 }

/-- Witness for C2: a concrete refresh whose response omits the
refresh-token field keeps "RT0". -/
theorem refresh_access_token_carries_forward_witness :
    refreshBody0.lookup "refresh_token" = none ∧
    sampleClient.refresh_access_token "RT0" (.response 200 (some (.jdict refreshBody0))) 0 =
      some sampleToken0 ∧
    sampleToken0.refresh_token = some "RT0" :=
  ⟨rfl, rfl,
   refresh_access_token_carries_forward sampleClient "RT0" 200 refreshBody0 0 sampleToken0
     rfl rfl⟩

/-- C5: whenever a token exchange returns a token and the response body
reported `expires_in = n`, the token's computed expiry instant is the
clock reading `now` at issuance plus `n` seconds (the model reads the
clock once, so the tolerance is zero). -/
theorem exchange_expiry_computation (self : SpotifyOAuth) (code : String) (status : Nat)
    (td : List (String × JsonVal)) (now : Int) (tok : SpotifyToken) (n : Int)
    (hrep : td.lookup "expires_in" = some (.jint n))
    (hx : self.exchange_code_for_token code (.response status (some (.jdict td))) now =
      some tok) :
    tok.expires_at = some (now + n) := by
  obtain ⟨h1, -, h3⟩ := exchange_inversion self code status td now tok hx
  rw [hrep] at h1
  injection h1 with h1a
  injection h1a with h1b
  rw [h3, h1b]

/-- An exchange response body reporting a one-hour lifetime. -/
def exchangeBody0 : List (String × JsonVal) :=
  [("access_token", .jstr "AT1"), ("token_type", .jstr "Bearer"),
   ("expires_in", .jint 3600), ("refresh_token", .jstr "RT1"),
   ("scope", .jstr "user-read-email")]

/-- The token the embedding produces for `exchangeBody0` at `now = 1000`. -/
def sampleToken1 : SpotifyToken :=
  { access_token := "AT1", token_type := "Bearer", expires_in := 3600
    refresh_token := some "RT1", scope := some "user-read-email"
    expires_at := some 4600 }

/-- Witness for C5: a concrete exchange reporting `expires_in = 3600`
at `now = 1000` yields expiry 4600. -/
theorem exchange_expiry_computation_witness :
    exchangeBody0.lookup "expires_in" = some (.jint 3600) ∧
    sampleClient.exchange_code_for_token "validcode"
      (.response 200 (some (.jdict exchangeBody0))) 1000 = some sampleToken1 ∧
    sampleToken1.expires_at = some 4600 :=
  ⟨rfl, rfl,
   exchange_expiry_computation sampleClient "validcode" 200 exchangeBody0 1000 sampleToken1
     3600 rfl rfl⟩


/-- An upstream interaction that failed: a transport error, a non-2xx
status, or a body that is not a JSON object (in particular a body that
failed to parse at all, `body = none`). -/
def failedUpstream : HTTPResult → Prop
  | .transportError => True
  | .response status body =>
      ¬(200 ≤ status ∧ status < 300) ∨ ∀ td, body ≠ some (.jdict td)

/-- Helper: the token exchange maps every failed upstream interaction
to `none`. Shared by the C4 and C7 theorems. -/
theorem exchangeFailureAux (self : SpotifyOAuth) (code : String) (now : Int)
    (resp : HTTPResult) (h : failedUpstream resp) :
    self.exchange_code_for_token code resp now = none := by
  unfold SpotifyOAuth.exchange_code_for_token
  repeat' split
  all_goals try rfl
  simp only [failedUpstream] at h
  rcases h with h2 | h2
  · exact absurd (by assumption) h2
  · exact absurd rfl (h2 _)

/-- Helper: the token refresh maps every failed upstream interaction
to `none`. -/
theorem refreshFailureAux (self : SpotifyOAuth) (r : String) (now : Int)
    (resp : HTTPResult) (h : failedUpstream resp) :
    self.refresh_access_token r resp now = none := by
  unfold SpotifyOAuth.refresh_access_token
  repeat' split
  all_goals try rfl
  simp only [failedUpstream] at h
  rcases h with h2 | h2
  · exact absurd (by assumption) h2
  · exact absurd rfl (h2 _)

/-- Helper: the playlist fetch maps every failed upstream interaction
to `none`. -/
theorem playlistsFailureAux (self : SpotifyOAuth) (tok : String) (limit : Int)
    (resp : HTTPResult) (h : failedUpstream resp) :
    self.get_user_playlists tok resp limit = none := by
  unfold SpotifyOAuth.get_user_playlists
  repeat' split
  all_goals try rfl
  simp only [failedUpstream] at h
  rcases h with h2 | h2
  · exact absurd (by assumption) h2
  · exact absurd rfl (h2 _)

/-- C4: every transport error, non-2xx status, or malformed response
body makes `exchange_code_for_token` return `none`; the embedding is a
total function, so no exception crosses the component boundary. -/
theorem exchange_code_for_token_failure (self : SpotifyOAuth) (code : String)
    (now : Int) (resp : HTTPResult) (h : failedUpstream resp) :
    self.exchange_code_for_token code resp now = none :=
  exchangeFailureAux self code now resp h

/-- Witness for C4 at a simulated 500 response with an unparsable body
and at a transport error. -/
theorem exchange_code_for_token_failure_witness :
    sampleClient.exchange_code_for_token "validcode" (.response 500 none) 0 = none ∧
    sampleClient.exchange_code_for_token "validcode" .transportError 0 = none :=
  ⟨exchange_code_for_token_failure sampleClient "validcode" 0 (.response 500 none)
     (Or.inl (by omega)),
   exchange_code_for_token_failure sampleClient "validcode" 0 .transportError trivial⟩

/-- C7: the playlist-listing fetch defaults its page-size limit to 50,
issues exactly one request (no automatic pagination), and maps every
failed upstream interaction to the same `none` sentinel the token
exchange and refresh use, with no exception crossing the boundary. -/
theorem get_user_playlists_contract (self : SpotifyOAuth) :
    (∀ tok : String, SpotifyOAuth.get_user_playlists_requests tok =
      [{ url := "https://api.spotify.com/v1/me/playlists"
         params := [("limit", "50")], bearer := some tok }]) ∧
    (∀ (tok : String) (limit : Int),
      (SpotifyOAuth.get_user_playlists_requests tok limit).length = 1) ∧
    (∀ (tok : String) (limit : Int) (resp : HTTPResult), failedUpstream resp →
      self.get_user_playlists tok resp limit = none) ∧
    (∀ (code r : String) (now : Int) (resp : HTTPResult), failedUpstream resp →
      self.exchange_code_for_token code resp now = none ∧
      self.refresh_access_token r resp now = none) := by
  refine ⟨fun tok => rfl, fun tok limit => rfl, ?_, ?_⟩
  · exact fun tok limit resp h => playlistsFailureAux self tok limit resp h
  · exact fun code r now resp h =>
      ⟨exchangeFailureAux self code now resp h, refreshFailureAux self r now resp h⟩

/-- Witness for C7 at a concrete token, a 404 response and a transport
error. -/
theorem get_user_playlists_contract_witness :
    SpotifyOAuth.get_user_playlists_requests "tok" =
      [{ url := "https://api.spotify.com/v1/me/playlists"
         params := [("limit", "50")], bearer := some "tok" }] ∧
    sampleClient.get_user_playlists "tok" (.response 404 (some (.jdict []))) 50 = none ∧
    sampleClient.get_user_playlists "tok" .transportError 50 = none :=
  ⟨(get_user_playlists_contract sampleClient).1 "tok",
   (get_user_playlists_contract sampleClient).2.2.1 "tok" 50
     (.response 404 (some (.jdict []))) (Or.inl (by omega)),
   (get_user_playlists_contract sampleClient).2.2.1 "tok" 50 .transportError trivial⟩

/-- C8: constructing the client from settings with a missing client id
or secret is a total computation that only records the warning
"Spotify OAuth credentials not configured", and both token exchange and
token refresh on the resulting client return `none` for every upstream
interaction instead of crashing. -/
theorem missing_credentials_degrade (s : Settings)
    (h : pyTruthyStr s.SPOTIFY_CLIENT_ID = false ∨
         pyTruthyStr s.SPOTIFY_CLIENT_SECRET = false) :
    (SpotifyOAuth.construct s).2 = ["Spotify OAuth credentials not configured"] ∧
    (∀ (code : String) (resp : HTTPResult) (now : Int),
      (SpotifyOAuth.construct s).1.exchange_code_for_token code resp now = none) ∧
    (∀ (r : String) (resp : HTTPResult) (now : Int),
      (SpotifyOAuth.construct s).1.refresh_access_token r resp now = none) := by
  have hcond : (!(pyTruthyStr s.SPOTIFY_CLIENT_ID) ||
      !(pyTruthyStr s.SPOTIFY_CLIENT_SECRET)) = true := by
    rcases h with h | h <;> simp [h]
  refine ⟨?_, ?_, ?_⟩
  · simp only [SpotifyOAuth.construct]
    rw [if_pos hcond]
  · intro code resp now
    unfold SpotifyOAuth.exchange_code_for_token
    simp only [SpotifyOAuth.construct]
    rw [if_pos hcond]
  · intro r resp now
    unfold SpotifyOAuth.refresh_access_token
    simp only [SpotifyOAuth.construct]
    rw [if_pos hcond]

/-- Witness for C8 at the default settings, whose credentials are
absent. -/
theorem missing_credentials_degrade_witness :
    (SpotifyOAuth.construct defaultSettings).2 =
      ["Spotify OAuth credentials not configured"] ∧
    (SpotifyOAuth.construct defaultSettings).1.exchange_code_for_token "c"
      (.response 200 (some (.jdict exchangeBody0))) 0 = none ∧
    (SpotifyOAuth.construct defaultSettings).1.refresh_access_token "r"
      (.response 200 (some (.jdict exchangeBody0))) 0 = none :=
  ⟨(missing_credentials_degrade defaultSettings (Or.inl rfl)).1,
   (missing_credentials_degrade defaultSettings (Or.inl rfl)).2.1 "c"
     (.response 200 (some (.jdict exchangeBody0))) 0,
   (missing_credentials_degrade defaultSettings (Or.inl rfl)).2.2 "r"
     (.response 200 (some (.jdict exchangeBody0))) 0⟩

/-- C3 counterexample: the empty string is a non-absent supplied state,
yet Python `if not state:` treats it as missing, so the generator
replaces it with a fresh random state instead of returning it
unmodified. -/
theorem get_authorization_url_empty_state_counterexample :
    (sampleClient.get_authorization_url (List.replicate 32 (0 : Nat)) (some "")).2 ≠ "" := by
  decide

/-- C3 (amended): for every caller-supplied non-empty state `s`, the
generator returns exactly `s` as the state component of its result. -/
theorem get_authorization_url_supplied_state (self : SpotifyOAuth)
    (randomBytes : List Nat) (s : String) (hne : s ≠ "") :
    (self.get_authorization_url randomBytes (some s)).2 = s := by
  simp [SpotifyOAuth.get_authorization_url, pyTruthyStr, hne]

/-- Witness for the amended C3 at the supplied state "mystate". -/
theorem get_authorization_url_supplied_state_witness :
    (sampleClient.get_authorization_url [] (some "mystate")).2 = "mystate" :=
  get_authorization_url_supplied_state sampleClient [] "mystate" (by decide)

/-- A character that is URL-safe: a letter, a digit, `-` or `_` (the
base64url alphabet). -/
def urlSafeChar (c : Char) : Prop := c.isAlphanum = true ∨ c = '-' ∨ c = '_'

instance (c : Char) : Decidable (urlSafeChar c) := by
  unfold urlSafeChar
  infer_instance

/-- Every base64url digit is URL-safe. -/
theorem b64Char_safe (n : Nat) : urlSafeChar (b64Char n) := by
  have h64 : ∀ m, m < 64 → urlSafeChar (b64UrlAlphabet.getD m 'A') := by decide
  exact h64 (n % 64) (Nat.mod_lt _ (by norm_num))

/-- Every character of a base64url encoding is URL-safe. -/
theorem b64UrlEncode_safe : ∀ bs : List Nat, ∀ c ∈ b64UrlEncode bs, urlSafeChar c
  | [] => by intro c hc; simp [b64UrlEncode] at hc
  | [b1] => by
    intro c hc
    simp only [b64UrlEncode, List.mem_cons, List.not_mem_nil, or_false] at hc
    rcases hc with rfl | rfl <;> exact b64Char_safe _
  | [b1, b2] => by
    intro c hc
    simp only [b64UrlEncode, List.mem_cons, List.not_mem_nil, or_false] at hc
    rcases hc with rfl | rfl | rfl <;> exact b64Char_safe _
  | b1 :: b2 :: b3 :: rest => by
    intro c hc
    simp only [b64UrlEncode, List.mem_cons] at hc
    rcases hc with rfl | rfl | rfl | rfl | hc
    · exact b64Char_safe _
    · exact b64Char_safe _
    · exact b64Char_safe _
    · exact b64Char_safe _
    · exact b64UrlEncode_safe rest c hc

/-- Length of a base64url encoding: four characters per full 3-byte
group, plus 2 or 3 characters for a trailing 1- or 2-byte group. -/
theorem b64UrlEncode_length : ∀ bs : List Nat, (b64UrlEncode bs).length =
    4 * (bs.length / 3) +
      (if bs.length % 3 = 0 then 0 else if bs.length % 3 = 1 then 2 else 3)
  | [] => rfl
  | [b1] => by simp [b64UrlEncode]
  | [b1, b2] => by simp [b64UrlEncode]
  | b1 :: b2 :: b3 :: rest => by
    have ih := b64UrlEncode_length rest
    simp only [b64UrlEncode, List.length_cons, ih]
    split_ifs <;> omega

/-- `quote_plus` leaves a URL-safe character unescaped. -/
theorem quotePlusChar_safe (c : Char) (h : urlSafeChar c) : quotePlusChar c = [c] := by
  unfold urlSafeChar at h
  rcases h with h | rfl | rfl
  · simp [quotePlusChar, h]
  · rfl
  · rfl

/-- Flattening singleton lists is the identity. -/
theorem flatten_map_singleton (l : List Char) : (l.map (fun c => [c])).flatten = l := by
  induction l with
  | nil => rfl
  | cons a t ih => simp [ih]

/-- `quote_plus` leaves a string of URL-safe characters unchanged. -/
theorem quotePlus_of_safe (s : String) (h : ∀ c ∈ s.data, urlSafeChar c) :
    quotePlus s = s := by
  unfold quotePlus
  rw [List.map_congr_left (fun c hc => quotePlusChar_safe c (h c hc)),
    flatten_map_singleton]

/-- C6: when no state is supplied and the CSPRNG drew 32 bytes (256
bits), the generated state is non-empty, has the 43 characters that
encode all 256 bits, consists only of URL-safe characters, appears
exactly once as a key of the query-parameter list, survives
query-string escaping unchanged, and the returned URL is the
authorization endpoint followed by the encoded query string. -/
theorem get_authorization_url_generated_state (self : SpotifyOAuth)
    (randomBytes : List Nat) (hlen : randomBytes.length = 32) :
    (self.get_authorization_url randomBytes none).2 ≠ "" ∧
    (self.get_authorization_url randomBytes none).2.data.length = 43 ∧
    (∀ c ∈ (self.get_authorization_url randomBytes none).2.data, urlSafeChar c) ∧
    ((self.authParams (self.get_authorization_url randomBytes none).2).map
      Prod.fst).count "state" = 1 ∧
    quotePlus (self.get_authorization_url randomBytes none).2 =
      (self.get_authorization_url randomBytes none).2 ∧
    (self.get_authorization_url randomBytes none).1 =
      "https://accounts.spotify.com/authorize?" ++
        urlencode (self.authParams (self.get_authorization_url randomBytes none).2) := by
  have hdata : (self.get_authorization_url randomBytes none).2.data =
      b64UrlEncode randomBytes := rfl
  have hlen43 : (b64UrlEncode randomBytes).length = 43 := by
    rw [b64UrlEncode_length, hlen]
    decide
  have hsafe : ∀ c ∈ (self.get_authorization_url randomBytes none).2.data, urlSafeChar c := by
    rw [hdata]
    exact b64UrlEncode_safe randomBytes
  refine ⟨?_, ?_, hsafe, ?_, quotePlus_of_safe _ hsafe, rfl⟩
  · intro h
    have hd := congrArg String.data h
    rw [hdata] at hd
    rw [hd] at hlen43
    simp at hlen43
  · rw [hdata]
    exact hlen43
  · exact (by decide :
      (List.count "state"
        ["client_id", "response_type", "redirect_uri", "scope", "state", "show_dialog"]) = 1)

/-- Witness for C6 at 32 zero bytes and the sample client. -/
theorem get_authorization_url_generated_state_witness :
    (sampleClient.get_authorization_url (List.replicate 32 (0 : Nat)) none).2 ≠ "" ∧
    (sampleClient.get_authorization_url (List.replicate 32 (0 : Nat)) none).2.data.length = 43 ∧
    ((sampleClient.authParams
      (sampleClient.get_authorization_url (List.replicate 32 (0 : Nat)) none).2).map
        Prod.fst).count "state" = 1 :=
  ⟨(get_authorization_url_generated_state sampleClient _ (by decide)).1,
   (get_authorization_url_generated_state sampleClient _ (by decide)).2.1,
   (get_authorization_url_generated_state sampleClient _ (by decide)).2.2.2.1⟩

/-- A successful upstream token response for the callback scenario. -/
def callbackTokenResp : HTTPResult := .response 200 (some (.jdict exchangeBody0))

/-- A successful upstream profile response for the callback scenario. -/
def callbackProfileResp : HTTPResult :=
  .response 200 (some (.jdict [("id", .jstr "user1"), ("display_name", .jstr "User One")]))

/-- C1: evaluation of the code at the failing input. The login endpoint
issues a state (here generated from 32 concrete random bytes) that is
not "WRONG", yet the callback handler invoked with `state = "WRONG"`
still succeeds and produces the access token: `spotify_callback` never
compares the received state to the issued one (no pending state is
stored anywhere), so a mismatched state is silently ignored instead of
failing with an absent result. -/
theorem spotify_callback_ignores_state :
    (sampleClient.get_authorization_url (List.replicate 32 (0 : Nat)) none).2 ≠ "WRONG" ∧
    (spotify_callback sampleClient "validcode" "WRONG" none callbackTokenResp
      callbackProfileResp 0).success = true ∧
    (spotify_callback sampleClient "validcode" "WRONG" none callbackTokenResp
      callbackProfileResp 0).access_token = some "AT1" :=
  ⟨by decide, rfl, rfl⟩
